import Mathlib

/-!
Verification of the artisan_runner supervisor loop.

The definitions below are a shallow embedding of src/main.rs together with
the parts of src/config.rs and src/child.rs that the main loop calls. Pure
control flow is translated directly; interactions with the outside world
(process spawning, the one shot build, signal delivery, configuration and
state loading) are represented by boolean oracle fields of IterInput and by
Act values recorded in a per iteration trace, in the exact order the
corresponding calls appear in the source.
-/

/-- Kinds of entries appended to the persisted error log by the log_error
calls reachable from the main loop. -/
inductive ErrKind where
  | killError
  | generalError
  deriving DecidableEq, Repr

/-- Fields of the persisted AppState that the loop reads or writes
(src/main.rs lines 55-91). Timestamp fields are dropped: they model wall
clock time. event_counter is a u64, so its increments are taken mod 2 ^ 64. -/
structure AppState where
  data : String
  event_counter : Nat
  is_active : Bool
  error_log : List ErrKind
  deriving DecidableEq, Repr

/-- AppSpecificConfig from src/config.rs lines 47-54. changes_needed is an
i32, modelled as Int: the loop only ever holds change counter values between
0 and the threshold (or 1 when the threshold is nonpositive), so i32
wraparound is unreachable and the Int model is exact. -/
structure AppSpecificConfig where
  interval_seconds : Nat
  monitor_path : String
  project_path : String
  changes_needed : Int
  ignored_subdirs : List String
  deriving DecidableEq, Repr

/-- State carried across iterations of the main loop (src/main.rs lines
146-297): the persisted state record, the local change_count (an i32), the
current child handle represented by a generation number bumped on every
create_child, and the two atomic signal flags. -/
structure LoopState where
  state : AppState
  change_count : Int
  childGen : Nat
  reload : Bool
  exit_graceful : Bool
  deriving DecidableEq, Repr

/-- Which select arm fired (src/main.rs line 166): a directory change event,
whose payload the code only logs, or the 3 second timer together with the
value that running() returned for the child. -/
inductive SelectArm where
  | change (event : String)
  | timer (running : Bool)
  deriving DecidableEq, Repr

/-- Responses of the environment consumed by one loop iteration: results of
kill, spawn (create_child) and the one shot build at each site where they
can be called, the signal flag values observed at the polls, and the outcome
of the config and state loads in the reload branch. -/
structure IterInput where
  arm : SelectArm
  killOk : Bool
  spawnOk : Bool
  buildOk : Bool
  sigReload : Bool
  sigShutdown : Bool
  reloadConfigOk : Bool
  stateLoadOk : Bool
  persistedEventCounter : Nat
  reloadKillOk : Bool
  reloadBuildOk : Bool
  reloadSpawnOk : Bool
  shutdownKillOk : Bool
  deriving DecidableEq, Repr

/-- Observable actions of one iteration, recorded in source order. -/
inductive Act where
  | printUsage
  | updateState
  | logError
  | killAttempt (ok : Bool)
  | spawnChild
  | buildRun (ok : Bool)
  | loadAppConfig
  | loadStateRecord
  | loadSpecificConfig
  | windDown
  deriving DecidableEq, Repr

/-- Result of one iteration: either the loop continues with a new state, or
the process terminated with the given exit code. A return from main counts
as termination with code 0. -/
inductive Outcome where
  | next (s : LoopState) (tr : List Act)
  | exited (code : Nat) (tr : List Act)
  deriving DecidableEq, Repr

/-- The action trace of an iteration outcome. -/
def Outcome.trace : Outcome → List Act
  | Outcome.next _ tr => tr
  | Outcome.exited _ tr => tr

/-- The continuing loop state of an outcome, if the loop continued. -/
def Outcome.endState : Outcome → Option LoopState
  | Outcome.next s _ => some s
  | Outcome.exited _ _ => none

/-- The exit code of an outcome, if the process terminated. -/
def Outcome.exitCode : Outcome → Option Nat
  | Outcome.next _ _ => none
  | Outcome.exited c _ => some c

/-- The state mutation at src/main.rs line 175: the event counter of the
persisted state is incremented by 1, with u64 wraparound explicit. -/
def bumpEventCounter (st : AppState) : AppState :=
  { st with event_counter := (st.event_counter + 1) % 2 ^ 64 }

/-- Handler for a directory change event (src/main.rs lines 167-193). The
event payload is not consulted: every event counts as exactly one change.
When the incremented counter reaches changes_needed, the state event counter
is bumped and persisted, then the child is killed; only if the kill succeeds
is a new child created (create_child exits with code 100 if the spawn
fails); on kill failure the error is logged and recorded and the old handle
is kept. The change counter is reset to 0 in every trigger case (line 191). -/
def handleChange (settings : AppSpecificConfig) (s : LoopState)
    (inp : IterInput) : Outcome :=
  if settings.changes_needed ≤ s.change_count + 1 then
    if inp.killOk then
      if inp.spawnOk then
        Outcome.next
          { s with state := bumpEventCounter s.state, change_count := 0,
                   childGen := s.childGen + 1 }
          [Act.updateState, Act.killAttempt true, Act.spawnChild]
      else
        Outcome.exited 100
          [Act.updateState, Act.killAttempt true, Act.logError,
           Act.windDown]
    else
      Outcome.next
        { s with
            state :=
              { bumpEventCounter s.state with
                  error_log :=
                    (bumpEventCounter s.state).error_log ++ [ErrKind.killError] },
            change_count := 0 }
        [Act.updateState, Act.killAttempt false, Act.logError]
  else
    Outcome.next { s with change_count := s.change_count + 1 } []

/-- Handler for the 3 second timer (src/main.rs lines 194-218). If the child
is not running, the one shot build is rerun (on failure the error is
recorded and main returns, ending the process with code 0) and a new child
is created, with no kill of the dead handle; in every continuing case the
state is marked active with status text Nominal and persisted. -/
def handleTimer (s : LoopState) (inp : IterInput) (running : Bool) : Outcome :=
  if running then
    Outcome.next
      { s with state := { s.state with is_active := true, data := "Nominal" } }
      [Act.updateState]
  else
    if inp.buildOk then
      if inp.spawnOk then
        Outcome.next
          { s with
              state := { s.state with is_active := true, data := "Nominal" },
              childGen := s.childGen + 1 }
          [Act.buildRun true, Act.spawnChild, Act.updateState]
      else
        Outcome.exited 100 [Act.buildRun true, Act.logError, Act.windDown]
    else
      Outcome.exited 0 [Act.buildRun false, Act.logError]

/-- Dispatch on the select arm (src/main.rs line 166). -/
def handleSelect (settings : AppSpecificConfig) (s : LoopState)
    (inp : IterInput) : Outcome :=
  match inp.arm with
  | SelectArm.change _ => handleChange settings s inp
  | SelectArm.timer running => handleTimer s inp running

/-- The state record produced by the reload branch (src/main.rs lines
228-263): either the record loaded from disk with status text Reloading, the
active flag set and the error log cleared, or a fresh record with status
text Initializing when the load fails. -/
def reloadedState (inp : IterInput) : AppState :=
  if inp.stateLoadOk then
    { data := "Reloading", event_counter := inp.persistedEventCounter % 2 ^ 64,
      is_active := true, error_log := [] }
  else
    { data := "Initializing", event_counter := 0, is_active := false,
      error_log := [] }

/-- The reload poll (src/main.rs lines 221-286). If the flag is observed
set: reload the static config (get_config exits with code 100 on failure),
rebuild the state record and persist it, kill the child (on failure: log,
wind down, exit 100), rerun the one shot build (on failure: log and return
from main, code 0), create a new child (exit 100 on failure), and clear the
flag. The app specific settings record is not reloaded anywhere in this
branch. -/
def handleReload (s : LoopState) (inp : IterInput) : Outcome :=
  if s.reload || inp.sigReload then
    if inp.reloadConfigOk then
      if inp.reloadKillOk then
        if inp.reloadBuildOk then
          if inp.reloadSpawnOk then
            Outcome.next
              { s with state := reloadedState inp, childGen := s.childGen + 1,
                       reload := false }
              [Act.loadAppConfig, Act.loadStateRecord, Act.updateState,
               Act.killAttempt true, Act.buildRun true, Act.spawnChild]
          else
            Outcome.exited 100
              [Act.loadAppConfig, Act.loadStateRecord, Act.updateState,
               Act.killAttempt true, Act.buildRun true, Act.logError,
               Act.windDown]
        else
          Outcome.exited 0
            [Act.loadAppConfig, Act.loadStateRecord, Act.updateState,
             Act.killAttempt true, Act.buildRun false, Act.logError]
      else
        Outcome.exited 100
          [Act.loadAppConfig, Act.loadStateRecord, Act.updateState,
           Act.killAttempt false, Act.logError, Act.windDown]
    else
      Outcome.exited 100 [Act.loadAppConfig]
  else
    Outcome.next s []

/-- The shutdown poll (src/main.rs lines 288-296): one kill attempt, then
exit 0 on success, or log, wind down and exit 100 on failure. -/
def handleShutdown (s : LoopState) (inp : IterInput) : Outcome :=
  if s.exit_graceful || inp.sigShutdown then
    if inp.shutdownKillOk then
      Outcome.exited 0 [Act.killAttempt true]
    else
      Outcome.exited 100
        [Act.killAttempt false, Act.logError, Act.windDown]
  else
    Outcome.next s []

/-- One full iteration of the main loop (src/main.rs lines 164-297): print
usage, run the select arm, then poll the reload flag and the shutdown flag,
in that order. -/
def stepIter (settings : AppSpecificConfig) (s : LoopState)
    (inp : IterInput) : Outcome :=
  match handleSelect settings s inp with
  | Outcome.exited c tr => Outcome.exited c (Act.printUsage :: tr)
  | Outcome.next s1 tr1 =>
    match handleReload s1 inp with
    | Outcome.exited c tr2 => Outcome.exited c (Act.printUsage :: (tr1 ++ tr2))
    | Outcome.next s2 tr2 =>
      match handleShutdown s2 inp with
      | Outcome.exited c tr3 =>
          Outcome.exited c (Act.printUsage :: (tr1 ++ tr2 ++ tr3))
      | Outcome.next s3 tr3 =>
          Outcome.next s3 (Act.printUsage :: (tr1 ++ tr2 ++ tr3))

/-- Result of running the loop on a list of iteration inputs. -/
inductive RunResult where
  | running (s : LoopState) (tr : List Act)
  | exited (code : Nat) (tr : List Act)
  deriving DecidableEq, Repr

/-- The accumulated trace of a run. -/
def RunResult.trace : RunResult → List Act
  | RunResult.running _ tr => tr
  | RunResult.exited _ tr => tr

/-- Run the main loop over a list of iteration inputs, accumulating the
trace; once the process has exited the remaining inputs are ignored. -/
def runLoop (settings : AppSpecificConfig) (s : LoopState) :
    List IterInput → RunResult
  | [] => RunResult.running s []
  | inp :: rest =>
    match stepIter settings s inp with
    | Outcome.exited c tr => RunResult.exited c tr
    | Outcome.next s1 tr =>
      match runLoop settings s1 rest with
      | RunResult.running s2 tr2 => RunResult.running s2 (tr ++ tr2)
      | RunResult.exited c tr2 => RunResult.exited c (tr ++ tr2)

/-- The AppState at loop entry (src/main.rs lines 100-144): active, with the
status text set after the first spawn, and the event counter either loaded
from disk or 0. -/
def initAppState (ec0 : Nat) : AppState :=
  { data := "Child spawned", event_counter := ec0 % 2 ^ 64, is_active := true,
    error_log := [] }

/-- The loop state at loop entry (src/main.rs lines 146-147): change counter
0, first child generation, both signal flags clear. -/
def initLoopState (ec0 : Nat) : LoopState :=
  { state := initAppState ec0, change_count := 0, childGen := 0,
    reload := false, exit_graceful := false }

/-- Outcomes of the startup phase of main (src/main.rs lines 32-161). -/
inductive StartupResult where
  | exited (code : Nat)
  | entersLoop
  deriving DecidableEq, Repr

/-- Oracles for the fallible startup steps, in source order. stateLoadOk is
recorded for completeness: both branches of the state load continue. -/
structure StartupInput where
  getConfigOk : Bool
  specificOk : Bool
  stateLoadOk : Bool
  pathExists : Bool
  buildOk : Bool
  spawnOk : Bool
  watcherOk : Bool
  deriving DecidableEq, Repr

/-- Exit behaviour of startup (src/main.rs lines 32-161 and src/config.rs):
get_config failure exits 100 (config.rs line 19); specific_config failure
exits 0 (main.rs line 49); a missing monitor path exits 0 (config.rs line
63, first reached from main.rs line 114); a failed initial one shot build
returns from main, code 0 (line 124); a failed spawn or a child that is not
running exits 100 (child.rs, main.rs line 142); a watcher setup failure
exits 0 (line 159). -/
def startup (i : StartupInput) : StartupResult :=
  if !i.getConfigOk then StartupResult.exited 100
  else if !i.specificOk then StartupResult.exited 0
  else if !i.pathExists then StartupResult.exited 0
  else if !i.buildOk then StartupResult.exited 0
  else if !i.spawnOk then StartupResult.exited 100
  else if !i.watcherOk then StartupResult.exited 0
  else StartupResult.entersLoop

/-- Counter invariant for a positive threshold: the change counter is
between 0 (inclusive) and the threshold (exclusive) at iteration
boundaries. -/
def counterInv (threshold : Int) (s : LoopState) : Prop :=
  0 ≤ s.change_count ∧ s.change_count < threshold

instance (threshold : Int) (s : LoopState) : Decidable (counterInv threshold s) :=
  inferInstanceAs (Decidable (And _ _))

/-- A concrete configuration with threshold 2, used by witnesses and
counterexamples. -/
def settings0 : AppSpecificConfig :=
  { interval_seconds := 30, monitor_path := "/srv/app",
    project_path := "/srv/app", changes_needed := 2, ignored_subdirs := [] }

/-- A concrete configuration with a nonpositive threshold. -/
def settingsNeg : AppSpecificConfig :=
  { interval_seconds := 30, monitor_path := "/srv/app",
    project_path := "/srv/app", changes_needed := -3, ignored_subdirs := [] }

/-- A default iteration input: timer arm with the child running, every
oracle succeeding, no signals observed. -/
def inp0 : IterInput :=
  { arm := SelectArm.timer true, killOk := true, spawnOk := true,
    buildOk := true, sigReload := false, sigShutdown := false,
    reloadConfigOk := true, stateLoadOk := true, persistedEventCounter := 0,
    reloadKillOk := true, reloadBuildOk := true, reloadSpawnOk := true,
    shutdownKillOk := true }

/-- Equation for handleChange below the threshold. -/
theorem handleChange_small {settings : AppSpecificConfig} {s : LoopState}
    (inp : IterInput) (h : s.change_count + 1 < settings.changes_needed) :
    handleChange settings s inp
      = Outcome.next { s with change_count := s.change_count + 1 } [] := by
  unfold handleChange
  rw [if_neg (not_le.mpr h)]

/-- Equation for handleChange at the threshold when the kill succeeds and the
spawn succeeds. -/
theorem handleChange_trigger_ok {settings : AppSpecificConfig} {s : LoopState}
    {inp : IterInput} (h : settings.changes_needed ≤ s.change_count + 1)
    (hk : inp.killOk = true) (hs : inp.spawnOk = true) :
    handleChange settings s inp
      = Outcome.next
          { s with state := bumpEventCounter s.state, change_count := 0,
                   childGen := s.childGen + 1 }
          [Act.updateState, Act.killAttempt true, Act.spawnChild] := by
  unfold handleChange
  rw [if_pos h, hk, hs]
  simp

/-- Equation for handleChange at the threshold when the kill succeeds but the
spawn fails. -/
theorem handleChange_trigger_spawnFail {settings : AppSpecificConfig}
    {s : LoopState} {inp : IterInput}
    (h : settings.changes_needed ≤ s.change_count + 1)
    (hk : inp.killOk = true) (hs : inp.spawnOk = false) :
    handleChange settings s inp
      = Outcome.exited 100
          [Act.updateState, Act.killAttempt true, Act.logError, Act.windDown] := by
  unfold handleChange
  rw [if_pos h, hk, hs]
  simp

/-- Equation for handleChange at the threshold when the kill fails. -/
theorem handleChange_trigger_killFail {settings : AppSpecificConfig}
    {s : LoopState} {inp : IterInput}
    (h : settings.changes_needed ≤ s.change_count + 1)
    (hk : inp.killOk = false) :
    handleChange settings s inp
      = Outcome.next
          { s with
              state :=
                { bumpEventCounter s.state with
                    error_log :=
                      (bumpEventCounter s.state).error_log ++ [ErrKind.killError] },
              change_count := 0 }
          [Act.updateState, Act.killAttempt false, Act.logError] := by
  unfold handleChange
  rw [if_pos h, hk]
  simp

/-- Equation for handleTimer when the child is running. -/
theorem handleTimer_running {s : LoopState} (inp : IterInput) :
    handleTimer s inp true
      = Outcome.next
          { s with state := { s.state with is_active := true, data := "Nominal" } }
          [Act.updateState] := by
  unfold handleTimer
  simp

/-- Equation for handleTimer on a dead child with a successful rebuild and
spawn. -/
theorem handleTimer_dead_ok {s : LoopState} {inp : IterInput}
    (hb : inp.buildOk = true) (hs : inp.spawnOk = true) :
    handleTimer s inp false
      = Outcome.next
          { s with
              state := { s.state with is_active := true, data := "Nominal" },
              childGen := s.childGen + 1 }
          [Act.buildRun true, Act.spawnChild, Act.updateState] := by
  unfold handleTimer
  rw [hb, hs]
  simp

/-- Equation for handleTimer on a dead child when the rebuild fails. -/
theorem handleTimer_dead_buildFail {s : LoopState} {inp : IterInput}
    (hb : inp.buildOk = false) :
    handleTimer s inp false
      = Outcome.exited 0 [Act.buildRun false, Act.logError] := by
  unfold handleTimer
  rw [hb]
  simp

/-- Equation for handleTimer on a dead child when the spawn fails. -/
theorem handleTimer_dead_spawnFail {s : LoopState} {inp : IterInput}
    (hb : inp.buildOk = true) (hs : inp.spawnOk = false) :
    handleTimer s inp false
      = Outcome.exited 100 [Act.buildRun true, Act.logError, Act.windDown] := by
  unfold handleTimer
  rw [hb, hs]
  simp

/-- Equation for handleReload when the flag is not observed set. -/
theorem handleReload_idle {s : LoopState} {inp : IterInput}
    (h : (s.reload || inp.sigReload) = false) :
    handleReload s inp = Outcome.next s [] := by
  unfold handleReload
  rw [h]
  simp

/-- Equation for handleReload on the fully successful path. -/
theorem handleReload_ok {s : LoopState} {inp : IterInput}
    (h : (s.reload || inp.sigReload) = true) (hc : inp.reloadConfigOk = true)
    (hk : inp.reloadKillOk = true) (hb : inp.reloadBuildOk = true)
    (hs : inp.reloadSpawnOk = true) :
    handleReload s inp
      = Outcome.next
          { s with state := reloadedState inp, childGen := s.childGen + 1,
                   reload := false }
          [Act.loadAppConfig, Act.loadStateRecord, Act.updateState,
           Act.killAttempt true, Act.buildRun true, Act.spawnChild] := by
  unfold handleReload
  rw [h, hc, hk, hb, hs]
  simp

/-- Equation for handleReload when the static config reload fails. -/
theorem handleReload_configFail {s : LoopState} {inp : IterInput}
    (h : (s.reload || inp.sigReload) = true) (hc : inp.reloadConfigOk = false) :
    handleReload s inp = Outcome.exited 100 [Act.loadAppConfig] := by
  unfold handleReload
  rw [h, hc]
  simp

/-- Equation for handleReload when the kill fails. -/
theorem handleReload_killFail {s : LoopState} {inp : IterInput}
    (h : (s.reload || inp.sigReload) = true) (hc : inp.reloadConfigOk = true)
    (hk : inp.reloadKillOk = false) :
    handleReload s inp
      = Outcome.exited 100
          [Act.loadAppConfig, Act.loadStateRecord, Act.updateState,
           Act.killAttempt false, Act.logError, Act.windDown] := by
  unfold handleReload
  rw [h, hc, hk]
  simp

/-- Equation for handleReload when the rebuild fails. -/
theorem handleReload_buildFail {s : LoopState} {inp : IterInput}
    (h : (s.reload || inp.sigReload) = true) (hc : inp.reloadConfigOk = true)
    (hk : inp.reloadKillOk = true) (hb : inp.reloadBuildOk = false) :
    handleReload s inp
      = Outcome.exited 0
          [Act.loadAppConfig, Act.loadStateRecord, Act.updateState,
           Act.killAttempt true, Act.buildRun false, Act.logError] := by
  unfold handleReload
  rw [h, hc, hk, hb]
  simp

/-- Equation for handleReload when the new spawn fails. -/
theorem handleReload_spawnFail {s : LoopState} {inp : IterInput}
    (h : (s.reload || inp.sigReload) = true) (hc : inp.reloadConfigOk = true)
    (hk : inp.reloadKillOk = true) (hb : inp.reloadBuildOk = true)
    (hs : inp.reloadSpawnOk = false) :
    handleReload s inp
      = Outcome.exited 100
          [Act.loadAppConfig, Act.loadStateRecord, Act.updateState,
           Act.killAttempt true, Act.buildRun true, Act.logError,
           Act.windDown] := by
  unfold handleReload
  rw [h, hc, hk, hb, hs]
  simp

/-- Equation for handleShutdown when the flag is not observed set. -/
theorem handleShutdown_idle {s : LoopState} {inp : IterInput}
    (h : (s.exit_graceful || inp.sigShutdown) = false) :
    handleShutdown s inp = Outcome.next s [] := by
  unfold handleShutdown
  rw [h]
  simp

/-- Equation for handleShutdown when the kill succeeds. -/
theorem handleShutdown_ok {s : LoopState} {inp : IterInput}
    (h : (s.exit_graceful || inp.sigShutdown) = true)
    (hk : inp.shutdownKillOk = true) :
    handleShutdown s inp = Outcome.exited 0 [Act.killAttempt true] := by
  unfold handleShutdown
  rw [h, hk]
  simp

/-- Equation for handleShutdown when the kill fails. -/
theorem handleShutdown_killFail {s : LoopState} {inp : IterInput}
    (h : (s.exit_graceful || inp.sigShutdown) = true)
    (hk : inp.shutdownKillOk = false) :
    handleShutdown s inp
      = Outcome.exited 100
          [Act.killAttempt false, Act.logError, Act.windDown] := by
  unfold handleShutdown
  rw [h, hk]
  simp

/-- stepIter when the select arm already terminates the process. -/
theorem stepIter_eq_sel_exited {settings : AppSpecificConfig} {s : LoopState}
    {inp : IterInput} {c : Nat} {tr0 : List Act}
    (hsel : handleSelect settings s inp = Outcome.exited c tr0) :
    stepIter settings s inp = Outcome.exited c (Act.printUsage :: tr0) := by
  unfold stepIter
  rw [hsel]

/-- stepIter when the select arm continues and the reload poll terminates. -/
theorem stepIter_eq_reload_exited {settings : AppSpecificConfig} {s : LoopState}
    {inp : IterInput} {s1 : LoopState} {tr1 : List Act} {c : Nat}
    {tr2 : List Act}
    (hsel : handleSelect settings s inp = Outcome.next s1 tr1)
    (hrel : handleReload s1 inp = Outcome.exited c tr2) :
    stepIter settings s inp = Outcome.exited c (Act.printUsage :: (tr1 ++ tr2)) := by
  unfold stepIter
  rw [hsel]
  simp only [hrel]

/-- stepIter when only the shutdown poll terminates. -/
theorem stepIter_eq_shutdown_exited {settings : AppSpecificConfig}
    {s : LoopState} {inp : IterInput} {s1 s2 : LoopState}
    {tr1 tr2 : List Act} {c : Nat} {tr3 : List Act}
    (hsel : handleSelect settings s inp = Outcome.next s1 tr1)
    (hrel : handleReload s1 inp = Outcome.next s2 tr2)
    (hsd : handleShutdown s2 inp = Outcome.exited c tr3) :
    stepIter settings s inp
      = Outcome.exited c (Act.printUsage :: (tr1 ++ tr2 ++ tr3)) := by
  unfold stepIter
  rw [hsel]
  simp only [hrel, hsd]

/-- stepIter when the loop goes on to the next iteration. -/
theorem stepIter_eq_next {settings : AppSpecificConfig} {s : LoopState}
    {inp : IterInput} {s1 s2 s3 : LoopState} {tr1 tr2 tr3 : List Act}
    (hsel : handleSelect settings s inp = Outcome.next s1 tr1)
    (hrel : handleReload s1 inp = Outcome.next s2 tr2)
    (hsd : handleShutdown s2 inp = Outcome.next s3 tr3) :
    stepIter settings s inp
      = Outcome.next s3 (Act.printUsage :: (tr1 ++ tr2 ++ tr3)) := by
  unfold stepIter
  rw [hsel]
  simp only [hrel, hsd]

/-- A continuing iteration decomposes into continuing select, reload and
shutdown phases. -/
theorem stepIter_next_decomp {settings : AppSpecificConfig} {s : LoopState}
    {inp : IterInput} {s3 : LoopState} {tr : List Act}
    (h : stepIter settings s inp = Outcome.next s3 tr) :
    ∃ s1 tr1 s2 tr2 tr3,
      handleSelect settings s inp = Outcome.next s1 tr1
      ∧ handleReload s1 inp = Outcome.next s2 tr2
      ∧ handleShutdown s2 inp = Outcome.next s3 tr3
      ∧ tr = Act.printUsage :: (tr1 ++ tr2 ++ tr3) := by
  cases hsel : handleSelect settings s inp with
  | exited c tr0 =>
    rw [stepIter_eq_sel_exited hsel] at h
    exact absurd h (by simp)
  | next s1 tr1 =>
    cases hrel : handleReload s1 inp with
    | exited c tr2 =>
      rw [stepIter_eq_reload_exited hsel hrel] at h
      exact absurd h (by simp)
    | next s2 tr2 =>
      cases hsd : handleShutdown s2 inp with
      | exited c tr3 =>
        rw [stepIter_eq_shutdown_exited hsel hrel hsd] at h
        exact absurd h (by simp)
      | next s3b tr3 =>
        rw [stepIter_eq_next hsel hrel hsd] at h
        obtain ⟨h1, h2⟩ := Outcome.next.inj h
        exact ⟨s1, tr1, s2, tr2, tr3, rfl, hrel, h1 ▸ hsd, h2.symm⟩

/-- A terminating iteration decomposes into one of the three exit stages. -/
theorem stepIter_exited_decomp {settings : AppSpecificConfig} {s : LoopState}
    {inp : IterInput} {c : Nat} {tr : List Act}
    (h : stepIter settings s inp = Outcome.exited c tr) :
    (∃ tr0, handleSelect settings s inp = Outcome.exited c tr0
        ∧ tr = Act.printUsage :: tr0)
    ∨ (∃ s1 tr1 tr2, handleSelect settings s inp = Outcome.next s1 tr1
        ∧ handleReload s1 inp = Outcome.exited c tr2
        ∧ tr = Act.printUsage :: (tr1 ++ tr2))
    ∨ (∃ s1 tr1 s2 tr2 tr3, handleSelect settings s inp = Outcome.next s1 tr1
        ∧ handleReload s1 inp = Outcome.next s2 tr2
        ∧ handleShutdown s2 inp = Outcome.exited c tr3
        ∧ tr = Act.printUsage :: (tr1 ++ tr2 ++ tr3)) := by
  cases hsel : handleSelect settings s inp with
  | exited c0 tr0 =>
    rw [stepIter_eq_sel_exited hsel] at h
    obtain ⟨h1, h2⟩ := Outcome.exited.inj h
    exact Or.inl ⟨tr0, by rw [h1], h2.symm⟩
  | next s1 tr1 =>
    cases hrel : handleReload s1 inp with
    | exited c0 tr2 =>
      rw [stepIter_eq_reload_exited hsel hrel] at h
      obtain ⟨h1, h2⟩ := Outcome.exited.inj h
      exact Or.inr (Or.inl ⟨s1, tr1, tr2, rfl, h1 ▸ hrel, h2.symm⟩)
    | next s2 tr2 =>
      cases hsd : handleShutdown s2 inp with
      | exited c0 tr3 =>
        rw [stepIter_eq_shutdown_exited hsel hrel hsd] at h
        obtain ⟨h1, h2⟩ := Outcome.exited.inj h
        exact Or.inr (Or.inr ⟨s1, tr1, s2, tr2, tr3, rfl, hrel, h1 ▸ hsd, h2.symm⟩)
      | next s3b tr3 =>
        rw [stepIter_eq_next hsel hrel hsd] at h
        exact absurd h (by simp)

/-- Fields preserved by every continuing change event. -/
theorem handleChange_next {settings : AppSpecificConfig} {s : LoopState}
    {inp : IterInput} {s2 : LoopState} {tr : List Act}
    (h : handleChange settings s inp = Outcome.next s2 tr) :
    s2.reload = s.reload ∧ s2.exit_graceful = s.exit_graceful
    ∧ s2.state.data = s.state.data ∧ s2.state.is_active = s.state.is_active := by
  by_cases htrig : settings.changes_needed ≤ s.change_count + 1
  · cases hk : inp.killOk with
    | false =>
      rw [handleChange_trigger_killFail htrig hk] at h
      obtain ⟨h1, -⟩ := Outcome.next.inj h
      rw [← h1]
      simp [bumpEventCounter]
    | true =>
      cases hs : inp.spawnOk with
      | false =>
        rw [handleChange_trigger_spawnFail htrig hk hs] at h
        exact absurd h (by simp)
      | true =>
        rw [handleChange_trigger_ok htrig hk hs] at h
        obtain ⟨h1, -⟩ := Outcome.next.inj h
        rw [← h1]
        simp [bumpEventCounter]
  · rw [handleChange_small inp (not_le.mp htrig)] at h
    obtain ⟨h1, -⟩ := Outcome.next.inj h
    rw [← h1]
    simp

/-- Every process exit from the change event handler has code 100. -/
theorem handleChange_exited {settings : AppSpecificConfig} {s : LoopState}
    {inp : IterInput} {c : Nat} {tr : List Act}
    (h : handleChange settings s inp = Outcome.exited c tr) :
    c = 100 := by
  by_cases htrig : settings.changes_needed ≤ s.change_count + 1
  · cases hk : inp.killOk with
    | false =>
      rw [handleChange_trigger_killFail htrig hk] at h
      exact absurd h (by simp)
    | true =>
      cases hs : inp.spawnOk with
      | false =>
        rw [handleChange_trigger_spawnFail htrig hk hs] at h
        exact (Outcome.exited.inj h).1.symm
      | true =>
        rw [handleChange_trigger_ok htrig hk hs] at h
        exact absurd h (by simp)
  · rw [handleChange_small inp (not_le.mp htrig)] at h
    exact absurd h (by simp)

/-- Fields and facts for every continuing timer branch: the change counter,
signal flags, error log and event counter are untouched, the status text is
set to Nominal, the record is marked active, and the state is persisted;
no kill is ever attempted in this branch. -/
theorem handleTimer_next {s : LoopState} {inp : IterInput} {r : Bool}
    {s2 : LoopState} {tr : List Act}
    (h : handleTimer s inp r = Outcome.next s2 tr) :
    s2.change_count = s.change_count ∧ s2.reload = s.reload
    ∧ s2.exit_graceful = s.exit_graceful
    ∧ s2.state.error_log = s.state.error_log
    ∧ s2.state.event_counter = s.state.event_counter
    ∧ s2.state.is_active = true ∧ s2.state.data = "Nominal"
    ∧ Act.updateState ∈ tr
    ∧ Act.killAttempt true ∉ tr ∧ Act.killAttempt false ∉ tr := by
  cases r with
  | true =>
    rw [handleTimer_running inp] at h
    obtain ⟨h1, h2⟩ := Outcome.next.inj h
    rw [← h1, ← h2]
    simp
  | false =>
    cases hb : inp.buildOk with
    | false =>
      rw [handleTimer_dead_buildFail hb] at h
      exact absurd h (by simp)
    | true =>
      cases hs : inp.spawnOk with
      | false =>
        rw [handleTimer_dead_spawnFail hb hs] at h
        exact absurd h (by simp)
      | true =>
        rw [handleTimer_dead_ok hb hs] at h
        obtain ⟨h1, h2⟩ := Outcome.next.inj h
        rw [← h1, ← h2]
        simp

/-- Every process exit from the timer branch is either the build failure
return, with code 0, or a spawn failure with code 100. -/
theorem handleTimer_exited {s : LoopState} {inp : IterInput} {r : Bool}
    {c : Nat} {tr : List Act}
    (h : handleTimer s inp r = Outcome.exited c tr) :
    (c = 0 ∧ Act.buildRun false ∈ tr) ∨ c = 100 := by
  cases r with
  | true =>
    rw [handleTimer_running inp] at h
    exact absurd h (by simp)
  | false =>
    cases hb : inp.buildOk with
    | false =>
      rw [handleTimer_dead_buildFail hb] at h
      obtain ⟨h1, h2⟩ := Outcome.exited.inj h
      exact Or.inl ⟨h1.symm, by rw [← h2]; simp⟩
    | true =>
      cases hs : inp.spawnOk with
      | false =>
        rw [handleTimer_dead_spawnFail hb hs] at h
        exact Or.inr (Outcome.exited.inj h).1.symm
      | true =>
        rw [handleTimer_dead_ok hb hs] at h
        exact absurd h (by simp)

/-- Fields for every continuing reload poll: the reload flag is clear
afterwards and the change counter and shutdown flag are untouched. -/
theorem handleReload_next {s : LoopState} {inp : IterInput}
    {s2 : LoopState} {tr : List Act}
    (h : handleReload s inp = Outcome.next s2 tr) :
    s2.change_count = s.change_count ∧ s2.reload = false
    ∧ s2.exit_graceful = s.exit_graceful := by
  by_cases hobs : (s.reload || inp.sigReload) = true
  · cases hc : inp.reloadConfigOk with
    | false =>
      rw [handleReload_configFail hobs hc] at h
      exact absurd h (by simp)
    | true =>
      cases hk : inp.reloadKillOk with
      | false =>
        rw [handleReload_killFail hobs hc hk] at h
        exact absurd h (by simp)
      | true =>
        cases hb : inp.reloadBuildOk with
        | false =>
          rw [handleReload_buildFail hobs hc hk hb] at h
          exact absurd h (by simp)
        | true =>
          cases hsp : inp.reloadSpawnOk with
          | false =>
            rw [handleReload_spawnFail hobs hc hk hb hsp] at h
            exact absurd h (by simp)
          | true =>
            rw [handleReload_ok hobs hc hk hb hsp] at h
            obtain ⟨h1, -⟩ := Outcome.next.inj h
            rw [← h1]
            simp
  · have hobs' : (s.reload || inp.sigReload) = false := by
      simpa using hobs
    rw [handleReload_idle hobs'] at h
    obtain ⟨h1, -⟩ := Outcome.next.inj h
    rw [← h1]
    have : s.reload = false := by
      rcases Bool.or_eq_false_iff.mp hobs' with ⟨h3, -⟩
      exact h3
    exact ⟨rfl, this, rfl⟩

/-- Every process exit from the reload poll is either the build failure
return, with code 0, or an exit with code 100. -/
theorem handleReload_exited {s : LoopState} {inp : IterInput}
    {c : Nat} {tr : List Act}
    (h : handleReload s inp = Outcome.exited c tr) :
    (c = 0 ∧ Act.buildRun false ∈ tr) ∨ c = 100 := by
  by_cases hobs : (s.reload || inp.sigReload) = true
  · cases hc : inp.reloadConfigOk with
    | false =>
      rw [handleReload_configFail hobs hc] at h
      exact Or.inr (Outcome.exited.inj h).1.symm
    | true =>
      cases hk : inp.reloadKillOk with
      | false =>
        rw [handleReload_killFail hobs hc hk] at h
        exact Or.inr (Outcome.exited.inj h).1.symm
      | true =>
        cases hb : inp.reloadBuildOk with
        | false =>
          rw [handleReload_buildFail hobs hc hk hb] at h
          obtain ⟨h1, h2⟩ := Outcome.exited.inj h
          exact Or.inl ⟨h1.symm, by rw [← h2]; simp⟩
        | true =>
          cases hsp : inp.reloadSpawnOk with
          | false =>
            rw [handleReload_spawnFail hobs hc hk hb hsp] at h
            exact Or.inr (Outcome.exited.inj h).1.symm
          | true =>
            rw [handleReload_ok hobs hc hk hb hsp] at h
            exact absurd h (by simp)
  · have hobs' : (s.reload || inp.sigReload) = false := by
      simpa using hobs
    rw [handleReload_idle hobs'] at h
    exact absurd h (by simp)

/-- The shutdown poll continues only when the flag is not observed set, and
then it changes nothing. -/
theorem handleShutdown_next {s : LoopState} {inp : IterInput}
    {s2 : LoopState} {tr : List Act}
    (h : handleShutdown s inp = Outcome.next s2 tr) :
    s2 = s ∧ tr = [] ∧ (s.exit_graceful || inp.sigShutdown) = false := by
  by_cases hobs : (s.exit_graceful || inp.sigShutdown) = true
  · cases hk : inp.shutdownKillOk with
    | false =>
      rw [handleShutdown_killFail hobs hk] at h
      exact absurd h (by simp)
    | true =>
      rw [handleShutdown_ok hobs hk] at h
      exact absurd h (by simp)
  · have hobs' : (s.exit_graceful || inp.sigShutdown) = false := by
      simpa using hobs
    rw [handleShutdown_idle hobs'] at h
    obtain ⟨h1, h2⟩ := Outcome.next.inj h
    exact ⟨h1.symm, h2.symm, hobs'⟩

/-- Every process exit from the shutdown poll: code 0 after a successful
kill, else code 100; in both cases the flag was observed set. -/
theorem handleShutdown_exited {s : LoopState} {inp : IterInput}
    {c : Nat} {tr : List Act}
    (h : handleShutdown s inp = Outcome.exited c tr) :
    (s.exit_graceful || inp.sigShutdown) = true
    ∧ ((c = 0 ∧ inp.shutdownKillOk = true ∧ tr = [Act.killAttempt true])
       ∨ (c = 100 ∧ inp.shutdownKillOk = false)) := by
  by_cases hobs : (s.exit_graceful || inp.sigShutdown) = true
  · refine ⟨hobs, ?_⟩
    cases hk : inp.shutdownKillOk with
    | false =>
      rw [handleShutdown_killFail hobs hk] at h
      exact Or.inr ⟨(Outcome.exited.inj h).1.symm, rfl⟩
    | true =>
      rw [handleShutdown_ok hobs hk] at h
      obtain ⟨h1, h2⟩ := Outcome.exited.inj h
      exact Or.inl ⟨h1.symm, rfl, h2.symm⟩
  · have hobs' : (s.exit_graceful || inp.sigShutdown) = false := by
      simpa using hobs
    rw [handleShutdown_idle hobs'] at h
    exact absurd h (by simp)

/-- handleSelect on a change event is handleChange. -/
theorem handleSelect_change {settings : AppSpecificConfig} {s : LoopState}
    {inp : IterInput} {e : String} (harm : inp.arm = SelectArm.change e) :
    handleSelect settings s inp = handleChange settings s inp := by
  unfold handleSelect
  rw [harm]

/-- handleSelect on a timer tick is handleTimer. -/
theorem handleSelect_timer {settings : AppSpecificConfig} {s : LoopState}
    {inp : IterInput} {r : Bool} (harm : inp.arm = SelectArm.timer r) :
    handleSelect settings s inp = handleTimer s inp r := by
  unfold handleSelect
  rw [harm]

/-- A continuing change event preserves the counter invariant for a positive
threshold. -/
theorem handleChange_counterInv {settings : AppSpecificConfig} {s : LoopState}
    {inp : IterInput} {s2 : LoopState} {tr : List Act}
    (hT : 0 < settings.changes_needed)
    (hinv : counterInv settings.changes_needed s)
    (h : handleChange settings s inp = Outcome.next s2 tr) :
    counterInv settings.changes_needed s2 := by
  obtain ⟨hinv1, hinv2⟩ := hinv
  by_cases htrig : settings.changes_needed ≤ s.change_count + 1
  · cases hk : inp.killOk with
    | false =>
      rw [handleChange_trigger_killFail htrig hk] at h
      obtain ⟨h1, -⟩ := Outcome.next.inj h
      rw [← h1]
      exact ⟨le_refl 0, hT⟩
    | true =>
      cases hs : inp.spawnOk with
      | false =>
        rw [handleChange_trigger_spawnFail htrig hk hs] at h
        exact absurd h (by simp)
      | true =>
        rw [handleChange_trigger_ok htrig hk hs] at h
        obtain ⟨h1, -⟩ := Outcome.next.inj h
        rw [← h1]
        exact ⟨le_refl 0, hT⟩
  · rw [handleChange_small inp (not_le.mp htrig)] at h
    obtain ⟨h1, -⟩ := Outcome.next.inj h
    rw [← h1]
    refine ⟨?_, not_le.mp htrig⟩
    show (0 : Int) ≤ s.change_count + 1
    omega

/-- The select phase preserves the counter invariant for a positive
threshold. -/
theorem handleSelect_counterInv {settings : AppSpecificConfig} {s : LoopState}
    {inp : IterInput} {s2 : LoopState} {tr : List Act}
    (hT : 0 < settings.changes_needed)
    (hinv : counterInv settings.changes_needed s)
    (h : handleSelect settings s inp = Outcome.next s2 tr) :
    counterInv settings.changes_needed s2 := by
  cases harm : inp.arm with
  | change e =>
    rw [handleSelect_change harm] at h
    exact handleChange_counterInv hT hinv h
  | timer r =>
    rw [handleSelect_timer harm] at h
    have hcc := (handleTimer_next h).1
    simp only [counterInv] at hinv ⊢
    omega

/-- A full continuing iteration preserves the counter invariant for a
positive threshold. -/
theorem stepIter_counterInv {settings : AppSpecificConfig} {s : LoopState}
    {inp : IterInput} {s2 : LoopState} {tr : List Act}
    (hT : 0 < settings.changes_needed)
    (hinv : counterInv settings.changes_needed s)
    (h : stepIter settings s inp = Outcome.next s2 tr) :
    counterInv settings.changes_needed s2 := by
  obtain ⟨s1, tr1, sA, tr2, tr3, hsel, hrel, hsd, -⟩ := stepIter_next_decomp h
  have hinvA := handleSelect_counterInv hT hinv hsel
  have hcc := (handleReload_next hrel).1
  obtain ⟨hEq, -, -⟩ := handleShutdown_next hsd
  rw [hEq]
  simp only [counterInv] at hinvA ⊢
  omega

/-- C1: for every sequence of filesystem change events, with a positive
configured threshold the change counter starts at 0, each event increments
it by exactly 1 (the handler never consults the event payload, so path and
kind are irrelevant), the incremented value never exceeds the threshold, and
at the exact moment it reaches the threshold the restart path is triggered
(a kill attempt occurs in the same handling) and the counter is reset to 0. -/
theorem C1_change_counter_threshold (settings : AppSpecificConfig) (ec0 : Nat)
    (hT : 0 < settings.changes_needed) :
    (initLoopState ec0).change_count = 0
    ∧ (∀ s inp s2 tr, counterInv settings.changes_needed s →
        stepIter settings s inp = Outcome.next s2 tr →
        counterInv settings.changes_needed s2)
    ∧ (∀ s inp, counterInv settings.changes_needed s →
        s.change_count + 1 ≤ settings.changes_needed
        ∧ (∀ s2 tr, handleChange settings s inp = Outcome.next s2 tr →
            (s.change_count + 1 = settings.changes_needed →
              s2.change_count = 0 ∧ Act.killAttempt inp.killOk ∈ tr)
            ∧ (s.change_count + 1 < settings.changes_needed →
              s2.change_count = s.change_count + 1 ∧ tr = []))) := by
  refine ⟨rfl, ?_, ?_⟩
  · intro s inp s2 tr hinv h
    exact stepIter_counterInv hT hinv h
  · intro s inp hinv
    obtain ⟨hinv1, hinv2⟩ := hinv
    refine ⟨by omega, ?_⟩
    intro s2 tr h
    constructor
    · intro heq
      have htrig : settings.changes_needed ≤ s.change_count + 1 := le_of_eq heq.symm
      cases hk : inp.killOk with
      | false =>
        rw [handleChange_trigger_killFail htrig hk] at h
        obtain ⟨h1, h2⟩ := Outcome.next.inj h
        rw [← h1, ← h2]
        exact ⟨rfl, by simp⟩
      | true =>
        cases hs : inp.spawnOk with
        | false =>
          rw [handleChange_trigger_spawnFail htrig hk hs] at h
          exact absurd h (by simp)
        | true =>
          rw [handleChange_trigger_ok htrig hk hs] at h
          obtain ⟨h1, h2⟩ := Outcome.next.inj h
          rw [← h1, ← h2]
          exact ⟨rfl, by simp⟩
    · intro hlt
      rw [handleChange_small inp hlt] at h
      obtain ⟨h1, h2⟩ := Outcome.next.inj h
      rw [← h1, ← h2]
      exact ⟨rfl, rfl⟩

/-- Witness for C1 at the concrete threshold 2. -/
theorem C1_witness :
    (0 : Int) < settings0.changes_needed ∧ (initLoopState 0).change_count = 0 :=
  ⟨by decide, (C1_change_counter_threshold settings0 0 (by decide)).1⟩

/-- C10: when the configured change threshold is zero or negative, every
single change event immediately triggers the restart path, because the
comparison after the single increment uses a greater or equal test: the
persisted event counter is bumped, a kill is attempted, and the counter is
reset to 0 in every continuing case, while a failing respawn after a
successful kill exits with code 100. -/
theorem C10_nonpositive_threshold (settings : AppSpecificConfig)
    (s : LoopState) (inp : IterInput)
    (hT : settings.changes_needed ≤ 0) (hcc : 0 ≤ s.change_count) :
    settings.changes_needed ≤ s.change_count + 1
    ∧ (∀ s2 tr, handleChange settings s inp = Outcome.next s2 tr →
        s2.change_count = 0
        ∧ s2.state.event_counter = (s.state.event_counter + 1) % 2 ^ 64
        ∧ Act.killAttempt inp.killOk ∈ tr)
    ∧ (inp.killOk = true → inp.spawnOk = false →
        handleChange settings s inp
          = Outcome.exited 100
              [Act.updateState, Act.killAttempt true, Act.logError,
               Act.windDown]) := by
  have htrig : settings.changes_needed ≤ s.change_count + 1 := by omega
  refine ⟨htrig, ?_, ?_⟩
  · intro s2 tr h
    cases hk : inp.killOk with
    | false =>
      rw [handleChange_trigger_killFail htrig hk] at h
      obtain ⟨h1, h2⟩ := Outcome.next.inj h
      rw [← h1, ← h2]
      exact ⟨rfl, by simp [bumpEventCounter], by simp⟩
    | true =>
      cases hs : inp.spawnOk with
      | false =>
        rw [handleChange_trigger_spawnFail htrig hk hs] at h
        exact absurd h (by simp)
      | true =>
        rw [handleChange_trigger_ok htrig hk hs] at h
        obtain ⟨h1, h2⟩ := Outcome.next.inj h
        rw [← h1, ← h2]
        exact ⟨rfl, by simp [bumpEventCounter], by simp⟩
  · intro hk hs
    exact handleChange_trigger_spawnFail htrig hk hs

/-- Witness for C10 at the concrete threshold -3. -/
theorem C10_witness :
    settingsNeg.changes_needed ≤ 0
    ∧ settingsNeg.changes_needed ≤ (initLoopState 0).change_count + 1 :=
  ⟨by decide,
    (C10_nonpositive_threshold settingsNeg (initLoopState 0) inp0 (by decide)
      (by decide)).1⟩

/-- A loop state one event short of the threshold of settings0, with child
generation 5. -/
def sC2 : LoopState :=
  { state := initAppState 0, change_count := 1, childGen := 5,
    reload := false, exit_graceful := false }

/-- A change event input whose kill fails. -/
def inpC2 : IterInput :=
  { inp0 with arm := SelectArm.change "src/index.js", killOk := false }

/-- C2 counterexample: at threshold 2, when the second event arrives and the
kill fails, the handler records the failure but performs no respawn: the
trace has a failed kill attempt and a log entry but no spawnChild action,
and the loop continues with the same child generation. This refutes the
claim that the respawn is attempted in that same handling. -/
theorem C2_counterexample :
    Act.killAttempt false ∈ (handleChange settings0 sC2 inpC2).trace
    ∧ Act.logError ∈ (handleChange settings0 sC2 inpC2).trace
    ∧ Act.spawnChild ∉ (handleChange settings0 sC2 inpC2).trace
    ∧ Option.map LoopState.childGen (handleChange settings0 sC2 inpC2).endState
        = some 5 := by decide

/-- C2 corrected: when a change threshold restart is triggered and the kill
of the current child fails, the failure is logged and recorded in the error
log, but the respawn is not attempted: the handler keeps the old child
handle (same generation), emits no spawnChild action, and only resets the
change counter; a new child is spawned in this handling only when the kill
succeeds. -/
theorem C2_no_respawn_on_kill_failure (settings : AppSpecificConfig)
    (s : LoopState) (inp : IterInput)
    (htrig : settings.changes_needed ≤ s.change_count + 1)
    (hk : inp.killOk = false) :
    handleChange settings s inp
      = Outcome.next
          { s with
              state :=
                { bumpEventCounter s.state with
                    error_log :=
                      (bumpEventCounter s.state).error_log ++ [ErrKind.killError] },
              change_count := 0 }
          [Act.updateState, Act.killAttempt false, Act.logError]
    ∧ Act.spawnChild ∉ (handleChange settings s inp).trace
    ∧ Option.map LoopState.childGen (handleChange settings s inp).endState
        = some s.childGen := by
  have heq := handleChange_trigger_killFail htrig hk
  refine ⟨heq, ?_, ?_⟩
  · rw [heq]
    simp [Outcome.trace]
  · rw [heq]
    simp [Outcome.endState]

/-- Witness for the corrected C2 at the concrete kill failure input. -/
theorem C2_witness :
    settings0.changes_needed ≤ sC2.change_count + 1 ∧ inpC2.killOk = false
    ∧ Act.spawnChild ∉ (handleChange settings0 sC2 inpC2).trace :=
  ⟨by decide, by decide,
    (C2_no_respawn_on_kill_failure settings0 sC2 inpC2 (by decide)
      (by decide)).2.1⟩

/-- C3 counterexample: in the same kill failure scenario no restart
completes (a kill attempt fails and no spawn occurs), yet the persisted
event counter is incremented from 0 to 1. This refutes the claim that the
counter is incremented only once per completed restart. -/
theorem C3_counterexample :
    Act.killAttempt false ∈ (handleChange settings0 sC2 inpC2).trace
    ∧ Act.spawnChild ∉ (handleChange settings0 sC2 inpC2).trace
    ∧ sC2.state.event_counter = 0
    ∧ Option.map (fun s2 => s2.state.event_counter)
        (handleChange settings0 sC2 inpC2).endState = some 1 := by decide

/-- C3 corrected: the persisted event counter is incremented exactly once
per change threshold trigger, before the kill attempt and regardless of
whether the kill and respawn complete; it is unchanged by events below the
threshold and by the timer branch. -/
theorem C3_event_counter_per_trigger (settings : AppSpecificConfig)
    (s : LoopState) (inp : IterInput) :
    (∀ s2 tr, handleChange settings s inp = Outcome.next s2 tr →
        (settings.changes_needed ≤ s.change_count + 1 →
          s2.state.event_counter = (s.state.event_counter + 1) % 2 ^ 64)
        ∧ (s.change_count + 1 < settings.changes_needed →
          s2.state.event_counter = s.state.event_counter ∧ tr = []))
    ∧ (∀ r s2 tr, handleTimer s inp r = Outcome.next s2 tr →
        s2.state.event_counter = s.state.event_counter) := by
  constructor
  · intro s2 tr h
    constructor
    · intro htrig
      cases hk : inp.killOk with
      | false =>
        rw [handleChange_trigger_killFail htrig hk] at h
        obtain ⟨h1, -⟩ := Outcome.next.inj h
        rw [← h1]
        simp [bumpEventCounter]
      | true =>
        cases hs : inp.spawnOk with
        | false =>
          rw [handleChange_trigger_spawnFail htrig hk hs] at h
          exact absurd h (by simp)
        | true =>
          rw [handleChange_trigger_ok htrig hk hs] at h
          obtain ⟨h1, -⟩ := Outcome.next.inj h
          rw [← h1]
          simp [bumpEventCounter]
    · intro hlt
      rw [handleChange_small inp hlt] at h
      obtain ⟨h1, h2⟩ := Outcome.next.inj h
      rw [← h1, ← h2]
      exact ⟨rfl, rfl⟩
  · intro r s2 tr h
    exact (handleTimer_next h).2.2.2.2.1

/-- The continuing result of the C3 kill failure scenario. -/
def outC3 : LoopState :=
  { sC2 with
      state :=
        { bumpEventCounter sC2.state with
            error_log :=
              (bumpEventCounter sC2.state).error_log ++ [ErrKind.killError] },
      change_count := 0 }

/-- Witness for the corrected C3 at the concrete kill failure input. -/
theorem C3_witness :
    outC3.state.event_counter = (sC2.state.event_counter + 1) % 2 ^ 64 :=
  (((C3_event_counter_per_trigger settings0 sC2 inpC2).1 outC3
      [Act.updateState, Act.killAttempt false, Act.logError]) (by decide)).1
    (by decide)

/-- A loop state with a mid course change counter and child generation 2. -/
def sC4 : LoopState :=
  { state := initAppState 3, change_count := 1, childGen := 2,
    reload := false, exit_graceful := false }

/-- A timer input observing a dead child, with build and spawn succeeding. -/
def inpC4 : IterInput := { inp0 with arm := SelectArm.timer false }

/-- C4 counterexample: when the health check finds the child dead and both
the rebuild and the spawn succeed, no kill attempt of any sort appears in
the handling, yet a spawn occurs and the child generation advances. This
refutes the claim that a best effort kill of the dead handle is performed
before the respawn. -/
theorem C4_counterexample :
    Act.killAttempt true ∉ (handleTimer sC4 inpC4 false).trace
    ∧ Act.killAttempt false ∉ (handleTimer sC4 inpC4 false).trace
    ∧ Act.spawnChild ∈ (handleTimer sC4 inpC4 false).trace
    ∧ Option.map LoopState.childGen (handleTimer sC4 inpC4 false).endState
        = some 3 := by decide

/-- C4 corrected: when the periodic health check observes a dead child, the
loop reruns the one shot build (terminating the process with code 0 on build
failure), then spawns a new worker directly, with no kill of the dead
handle; on success the status text is set to Nominal, the record is marked
active, and the state is persisted; a spawn failure exits with code 100. -/
theorem C4_health_restart_without_kill (s : LoopState) (inp : IterInput) :
    (inp.buildOk = true → inp.spawnOk = true →
      handleTimer s inp false
        = Outcome.next
            { s with
                state := { s.state with is_active := true, data := "Nominal" },
                childGen := s.childGen + 1 }
            [Act.buildRun true, Act.spawnChild, Act.updateState])
    ∧ (inp.buildOk = false →
      handleTimer s inp false
        = Outcome.exited 0 [Act.buildRun false, Act.logError])
    ∧ (inp.buildOk = true → inp.spawnOk = false →
      handleTimer s inp false
        = Outcome.exited 100 [Act.buildRun true, Act.logError, Act.windDown])
    ∧ Act.killAttempt true ∉ (handleTimer s inp false).trace
    ∧ Act.killAttempt false ∉ (handleTimer s inp false).trace := by
  have hnk : ∀ b, Act.killAttempt b ∉ (handleTimer s inp false).trace := by
    intro b
    cases hb : inp.buildOk with
    | false =>
      rw [handleTimer_dead_buildFail hb]
      cases b <;> simp [Outcome.trace]
    | true =>
      cases hs : inp.spawnOk with
      | false =>
        rw [handleTimer_dead_spawnFail hb hs]
        cases b <;> simp [Outcome.trace]
      | true =>
        rw [handleTimer_dead_ok hb hs]
        cases b <;> simp [Outcome.trace]
  exact ⟨fun hb hs => handleTimer_dead_ok hb hs,
    fun hb => handleTimer_dead_buildFail hb,
    fun hb hs => handleTimer_dead_spawnFail hb hs, hnk true, hnk false⟩

/-- Witness for the corrected C4 at the concrete dead child input. -/
theorem C4_witness :
    handleTimer sC4 inpC4 false
      = Outcome.next
          { sC4 with
              state := { sC4.state with is_active := true, data := "Nominal" },
              childGen := sC4.childGen + 1 }
          [Act.buildRun true, Act.spawnChild, Act.updateState] :=
  (C4_health_restart_without_kill sC4 inpC4).1 rfl rfl

/-- A loop state whose error log already holds one entry. -/
def sC5 : LoopState :=
  { state := { data := "Nominal", event_counter := 7, is_active := true,
               error_log := [ErrKind.generalError] },
    change_count := 0, childGen := 1, reload := false, exit_graceful := false }

/-- C5 counterexample: a full timer iteration with the child running and no
signals performs only the usage print and one state persist; the error log
is returned unchanged. No metrics sampling against a memory limit happens
and no resource or data unavailable entry is ever appended, refuting the
claim that metrics are sampled and error entries appended on every health
check firing. -/
theorem C5_counterexample :
    (stepIter settings0 sC5 inp0).trace = [Act.printUsage, Act.updateState]
    ∧ Option.map (fun s2 => s2.state.error_log)
        (stepIter settings0 sC5 inp0).endState
        = some [ErrKind.generalError] := by decide

/-- C5 corrected: the timer branch performs no metrics sampling at all; in
every continuing case it leaves the error log unchanged, marks the record
active with status text Nominal, and persists the state. The only per
iteration metrics interaction of the loop is the usage print at the top of
the loop, which never touches the error log. -/
theorem C5_timer_no_metrics (s : LoopState) (inp : IterInput) (r : Bool) :
    ∀ s2 tr, handleTimer s inp r = Outcome.next s2 tr →
      s2.state.error_log = s.state.error_log
      ∧ s2.state.is_active = true ∧ s2.state.data = "Nominal"
      ∧ Act.updateState ∈ tr := by
  intro s2 tr h
  have hh := handleTimer_next h
  exact ⟨hh.2.2.2.1, hh.2.2.2.2.2.1, hh.2.2.2.2.2.2.1, hh.2.2.2.2.2.2.2.1⟩

/-- The continuing result of the C5 timer scenario. -/
def outC5 : LoopState :=
  { sC5 with state := { sC5.state with is_active := true, data := "Nominal" } }

/-- Witness for the corrected C5 at the concrete running child input. -/
theorem C5_witness :
    outC5.state.error_log = sC5.state.error_log :=
  (C5_timer_no_metrics sC5 inp0 true outC5 [Act.updateState] (by decide)).1

/-- Startup input where only the specific config load fails. -/
def startC6 : StartupInput :=
  { getConfigOk := true, specificOk := false, stateLoadOk := true,
    pathExists := true, buildOk := true, spawnOk := true, watcherOk := true }

/-- The loop state at a clean shutdown scenario. -/
def sC6 : LoopState := initLoopState 0

/-- An input with the shutdown signal observed and the kill succeeding. -/
def inpC6 : IterInput := { inp0 with sigShutdown := true }

/-- C6 counterexample: an unreadable app specific configuration at startup
exits with code 0, which is exactly the code of a clean operator triggered
shutdown, so the configuration failure code is not distinct from the
success code. -/
theorem C6_counterexample :
    startup startC6 = StartupResult.exited 0
    ∧ (handleShutdown sC6 inpC6).exitCode = some 0 := by decide

/-- C6 corrected: the exit codes actually used are 0 and 100 only. Clean
operator shutdown exits 0, but so do several failure paths: an unreadable
app specific config, a missing monitor path, a watcher setup failure, and
every one shot build failure (initial, health restart, and reload, all via
return from main). The code 100 is used for static config load failure,
spawn failure, and kill failure during reload or shutdown. There is no
distinct configuration fatal code. -/
theorem C6_exit_codes (i : StartupInput) (s : LoopState) (inp : IterInput) :
    (i.getConfigOk = false → startup i = StartupResult.exited 100)
    ∧ (i.getConfigOk = true → i.specificOk = false →
        startup i = StartupResult.exited 0)
    ∧ (i.getConfigOk = true → i.specificOk = true → i.pathExists = false →
        startup i = StartupResult.exited 0)
    ∧ (i.getConfigOk = true → i.specificOk = true → i.pathExists = true →
        i.buildOk = false → startup i = StartupResult.exited 0)
    ∧ (i.getConfigOk = true → i.specificOk = true → i.pathExists = true →
        i.buildOk = true → i.spawnOk = false →
        startup i = StartupResult.exited 100)
    ∧ (i.getConfigOk = true → i.specificOk = true → i.pathExists = true →
        i.buildOk = true → i.spawnOk = true → i.watcherOk = false →
        startup i = StartupResult.exited 0)
    ∧ ((s.exit_graceful || inp.sigShutdown) = true →
        inp.shutdownKillOk = true →
        handleShutdown s inp = Outcome.exited 0 [Act.killAttempt true])
    ∧ ((s.exit_graceful || inp.sigShutdown) = true →
        inp.shutdownKillOk = false →
        handleShutdown s inp
          = Outcome.exited 100
              [Act.killAttempt false, Act.logError, Act.windDown])
    ∧ ((s.reload || inp.sigReload) = true → inp.reloadConfigOk = true →
        inp.reloadKillOk = false → (handleReload s inp).exitCode = some 100)
    ∧ ((s.reload || inp.sigReload) = true → inp.reloadConfigOk = true →
        inp.reloadKillOk = true → inp.reloadBuildOk = false →
        (handleReload s inp).exitCode = some 0)
    ∧ (inp.buildOk = false → (handleTimer s inp false).exitCode = some 0)
    ∧ (inp.buildOk = true → inp.spawnOk = false →
        (handleTimer s inp false).exitCode = some 100) := by
  refine ⟨?_, ?_, ?_, ?_, ?_, ?_, ?_, ?_, ?_, ?_, ?_, ?_⟩
  · intro h1
    simp [startup, h1]
  · intro h1 h2
    simp [startup, h1, h2]
  · intro h1 h2 h3
    simp [startup, h1, h2, h3]
  · intro h1 h2 h3 h4
    simp [startup, h1, h2, h3, h4]
  · intro h1 h2 h3 h4 h5
    simp [startup, h1, h2, h3, h4, h5]
  · intro h1 h2 h3 h4 h5 h6
    simp [startup, h1, h2, h3, h4, h5, h6]
  · intro hobs hk
    exact handleShutdown_ok hobs hk
  · intro hobs hk
    exact handleShutdown_killFail hobs hk
  · intro hobs hc hk
    rw [handleReload_killFail hobs hc hk]
    rfl
  · intro hobs hc hk hb
    rw [handleReload_buildFail hobs hc hk hb]
    rfl
  · intro hb
    rw [handleTimer_dead_buildFail hb]
    rfl
  · intro hb hs
    rw [handleTimer_dead_spawnFail hb hs]
    rfl

/-- Witness for the corrected C6: the config failure code equals the clean
shutdown code. -/
theorem C6_witness :
    startup startC6 = StartupResult.exited 0 :=
  (C6_exit_codes startC6 sC6 inpC6).2.1 rfl rfl

/-- No change event handling ever loads the app specific config. -/
theorem handleChange_no_specific (settings : AppSpecificConfig)
    (s : LoopState) (inp : IterInput) :
    Act.loadSpecificConfig ∉ (handleChange settings s inp).trace := by
  by_cases htrig : settings.changes_needed ≤ s.change_count + 1
  · cases hk : inp.killOk with
    | false =>
      rw [handleChange_trigger_killFail htrig hk]
      simp [Outcome.trace]
    | true =>
      cases hs : inp.spawnOk with
      | false =>
        rw [handleChange_trigger_spawnFail htrig hk hs]
        simp [Outcome.trace]
      | true =>
        rw [handleChange_trigger_ok htrig hk hs]
        simp [Outcome.trace]
  · rw [handleChange_small inp (not_le.mp htrig)]
    simp [Outcome.trace]

/-- No timer handling ever loads the app specific config. -/
theorem handleTimer_no_specific (s : LoopState) (inp : IterInput) (r : Bool) :
    Act.loadSpecificConfig ∉ (handleTimer s inp r).trace := by
  cases r with
  | true =>
    rw [handleTimer_running inp]
    simp [Outcome.trace]
  | false =>
    cases hb : inp.buildOk with
    | false =>
      rw [handleTimer_dead_buildFail hb]
      simp [Outcome.trace]
    | true =>
      cases hs : inp.spawnOk with
      | false =>
        rw [handleTimer_dead_spawnFail hb hs]
        simp [Outcome.trace]
      | true =>
        rw [handleTimer_dead_ok hb hs]
        simp [Outcome.trace]

/-- No select phase ever loads the app specific config. -/
theorem handleSelect_no_specific (settings : AppSpecificConfig)
    (s : LoopState) (inp : IterInput) :
    Act.loadSpecificConfig ∉ (handleSelect settings s inp).trace := by
  cases harm : inp.arm with
  | change e =>
    rw [handleSelect_change harm]
    exact handleChange_no_specific settings s inp
  | timer r =>
    rw [handleSelect_timer harm]
    exact handleTimer_no_specific s inp r

/-- The reload poll never loads the app specific config, even though it
reloads the static config and the state record. -/
theorem handleReload_no_specific (s : LoopState) (inp : IterInput) :
    Act.loadSpecificConfig ∉ (handleReload s inp).trace := by
  by_cases hobs : (s.reload || inp.sigReload) = true
  · cases hc : inp.reloadConfigOk with
    | false =>
      rw [handleReload_configFail hobs hc]
      simp [Outcome.trace]
    | true =>
      cases hk : inp.reloadKillOk with
      | false =>
        rw [handleReload_killFail hobs hc hk]
        simp [Outcome.trace]
      | true =>
        cases hb : inp.reloadBuildOk with
        | false =>
          rw [handleReload_buildFail hobs hc hk hb]
          simp [Outcome.trace]
        | true =>
          cases hsp : inp.reloadSpawnOk with
          | false =>
            rw [handleReload_spawnFail hobs hc hk hb hsp]
            simp [Outcome.trace]
          | true =>
            rw [handleReload_ok hobs hc hk hb hsp]
            simp [Outcome.trace]
  · have hobs' : (s.reload || inp.sigReload) = false := by
      simpa using hobs
    rw [handleReload_idle hobs']
    simp [Outcome.trace]

/-- The shutdown poll never loads the app specific config. -/
theorem handleShutdown_no_specific (s : LoopState) (inp : IterInput) :
    Act.loadSpecificConfig ∉ (handleShutdown s inp).trace := by
  by_cases hobs : (s.exit_graceful || inp.sigShutdown) = true
  · cases hk : inp.shutdownKillOk with
    | false =>
      rw [handleShutdown_killFail hobs hk]
      simp [Outcome.trace]
    | true =>
      rw [handleShutdown_ok hobs hk]
      simp [Outcome.trace]
  · have hobs' : (s.exit_graceful || inp.sigShutdown) = false := by
      simpa using hobs
    rw [handleShutdown_idle hobs']
    simp [Outcome.trace]

/-- No full iteration of the loop ever loads the app specific config. -/
theorem stepIter_no_specific (settings : AppSpecificConfig) (s : LoopState)
    (inp : IterInput) :
    Act.loadSpecificConfig ∉ (stepIter settings s inp).trace := by
  cases ho : stepIter settings s inp with
  | next s3 tr =>
    obtain ⟨s1, tr1, s2, tr2, tr3, hsel, hrel, hsd, htr⟩ :=
      stepIter_next_decomp ho
    have h1 := handleSelect_no_specific settings s inp
    rw [hsel] at h1
    have h2 := handleReload_no_specific s1 inp
    rw [hrel] at h2
    have h3 := handleShutdown_no_specific s2 inp
    rw [hsd] at h3
    simp only [Outcome.trace] at h1 h2 h3
    simp only [Outcome.trace, htr]
    intro hmem
    simp only [List.mem_cons, List.mem_append] at hmem
    rcases hmem with h | (h | h) | h
    · exact absurd h (by simp)
    · exact h1 h
    · exact h2 h
    · exact h3 h
  | exited c tr =>
    rcases stepIter_exited_decomp ho with
      ⟨tr0, hsel, htr⟩ | ⟨s1, tr1, tr2, hsel, hrel, htr⟩
        | ⟨s1, tr1, s2, tr2, tr3, hsel, hrel, hsd, htr⟩
    · have h1 := handleSelect_no_specific settings s inp
      rw [hsel] at h1
      simp only [Outcome.trace] at h1
      simp only [Outcome.trace, htr]
      intro hmem
      simp only [List.mem_cons] at hmem
      rcases hmem with h | h
      · exact absurd h (by simp)
      · exact h1 h
    · have h1 := handleSelect_no_specific settings s inp
      rw [hsel] at h1
      have h2 := handleReload_no_specific s1 inp
      rw [hrel] at h2
      simp only [Outcome.trace] at h1 h2
      simp only [Outcome.trace, htr]
      intro hmem
      simp only [List.mem_cons, List.mem_append] at hmem
      rcases hmem with h | h | h
      · exact absurd h (by simp)
      · exact h1 h
      · exact h2 h
    · have h1 := handleSelect_no_specific settings s inp
      rw [hsel] at h1
      have h2 := handleReload_no_specific s1 inp
      rw [hrel] at h2
      have h3 := handleShutdown_no_specific s2 inp
      rw [hsd] at h3
      simp only [Outcome.trace] at h1 h2 h3
      simp only [Outcome.trace, htr]
      intro hmem
      simp only [List.mem_cons, List.mem_append] at hmem
      rcases hmem with h | (h | h) | h
      · exact absurd h (by simp)
      · exact h1 h
      · exact h2 h
      · exact h3 h

/-- runLoop on a cons whose first iteration exits. -/
theorem runLoop_cons_exited {settings : AppSpecificConfig} {s : LoopState}
    {inp : IterInput} {rest : List IterInput} {c : Nat} {tr : List Act}
    (ho : stepIter settings s inp = Outcome.exited c tr) :
    runLoop settings s (inp :: rest) = RunResult.exited c tr := by
  unfold runLoop
  rw [ho]

/-- runLoop on a cons whose first iteration continues and whose remainder is
still running. -/
theorem runLoop_cons_running {settings : AppSpecificConfig} {s : LoopState}
    {inp : IterInput} {rest : List IterInput} {s1 : LoopState} {tr : List Act}
    {s2 : LoopState} {tr2 : List Act}
    (ho : stepIter settings s inp = Outcome.next s1 tr)
    (hr : runLoop settings s1 rest = RunResult.running s2 tr2) :
    runLoop settings s (inp :: rest) = RunResult.running s2 (tr ++ tr2) := by
  unfold runLoop
  rw [ho]
  simp only [hr]

/-- runLoop on a cons whose first iteration continues and whose remainder
exits. -/
theorem runLoop_cons_next_exited {settings : AppSpecificConfig}
    {s : LoopState} {inp : IterInput} {rest : List IterInput} {s1 : LoopState}
    {tr : List Act} {c : Nat} {tr2 : List Act}
    (ho : stepIter settings s inp = Outcome.next s1 tr)
    (hr : runLoop settings s1 rest = RunResult.exited c tr2) :
    runLoop settings s (inp :: rest) = RunResult.exited c (tr ++ tr2) := by
  unfold runLoop
  rw [ho]
  simp only [hr]

/-- No run of the loop, over any input sequence, ever loads the app
specific config. -/
theorem runLoop_no_specific (settings : AppSpecificConfig) :
    ∀ (inps : List IterInput) (s : LoopState),
      Act.loadSpecificConfig ∉ (runLoop settings s inps).trace := by
  intro inps
  induction inps with
  | nil =>
    intro s
    simp [runLoop, RunResult.trace]
  | cons inp rest ih =>
    intro s
    have hstep := stepIter_no_specific settings s inp
    cases ho : stepIter settings s inp with
    | exited c tr =>
      rw [ho] at hstep
      simp only [Outcome.trace] at hstep
      rw [runLoop_cons_exited ho]
      simpa [RunResult.trace] using hstep
    | next s1 tr =>
      rw [ho] at hstep
      simp only [Outcome.trace] at hstep
      have ih1 := ih s1
      cases hr : runLoop settings s1 rest with
      | running s2 tr2 =>
        rw [hr] at ih1
        simp only [RunResult.trace] at ih1
        rw [runLoop_cons_running ho hr]
        simp only [RunResult.trace]
        intro hmem
        rcases List.mem_append.mp hmem with h | h
        · exact hstep h
        · exact ih1 h
      | exited c tr2 =>
        rw [hr] at ih1
        simp only [RunResult.trace] at ih1
        rw [runLoop_cons_next_exited ho hr]
        simp only [RunResult.trace]
        intro hmem
        rcases List.mem_append.mp hmem with h | h
        · exact hstep h
        · exact ih1 h

/-- A reload scenario loop state with persisted event counter 4. -/
def sC7 : LoopState := initLoopState 4

/-- An input with the reload signal observed and every oracle succeeding. -/
def inpC7 : IterInput := { inp0 with sigReload := true }

/-- C7 counterexample: in a fully successful reload iteration the trace
reloads the static config and the state record but never the app specific
config, refuting the claim that an operator reload wholesale replaces the
app specific configuration record with a freshly loaded one. -/
theorem C7_counterexample :
    Act.loadAppConfig ∈ (stepIter settings0 sC7 inpC7).trace
    ∧ Act.loadStateRecord ∈ (stepIter settings0 sC7 inpC7).trace
    ∧ Act.loadSpecificConfig ∉ (stepIter settings0 sC7 inpC7).trace := by
  decide

/-- C7 corrected: the app specific configuration record is immutable for the
whole process lifetime: no loop iteration, and no run of the loop over any
input sequence, ever loads it again; an operator reload reloads only the
static config and the state record. -/
theorem C7_specific_config_immutable (settings : AppSpecificConfig)
    (s : LoopState) (inp : IterInput) :
    Act.loadSpecificConfig ∉ (stepIter settings s inp).trace
    ∧ (∀ inps sx, Act.loadSpecificConfig ∉ (runLoop settings sx inps).trace)
    ∧ ((s.reload || inp.sigReload) = true → inp.reloadConfigOk = true →
        inp.reloadKillOk = true → inp.reloadBuildOk = true →
        inp.reloadSpawnOk = true →
        Act.loadAppConfig ∈ (handleReload s inp).trace
        ∧ Act.loadStateRecord ∈ (handleReload s inp).trace) := by
  refine ⟨stepIter_no_specific settings s inp,
    fun inps sx => runLoop_no_specific settings inps sx, ?_⟩
  intro hobs hc hk hb hsp
  rw [handleReload_ok hobs hc hk hb hsp]
  constructor <;> simp [Outcome.trace]

/-- Witness for the corrected C7 at the concrete reload input. -/
theorem C7_witness :
    Act.loadSpecificConfig ∉ (stepIter settings0 sC7 inpC7).trace :=
  (C7_specific_config_immutable settings0 sC7 inpC7).1

/-- The select phase never changes the signal flags. -/
theorem handleSelect_next_flags {settings : AppSpecificConfig} {s : LoopState}
    {inp : IterInput} {s2 : LoopState} {tr : List Act}
    (h : handleSelect settings s inp = Outcome.next s2 tr) :
    s2.reload = s.reload ∧ s2.exit_graceful = s.exit_graceful := by
  cases harm : inp.arm with
  | change e =>
    rw [handleSelect_change harm] at h
    exact ⟨(handleChange_next h).1, (handleChange_next h).2.1⟩
  | timer r =>
    rw [handleSelect_timer harm] at h
    exact ⟨(handleTimer_next h).2.1, (handleTimer_next h).2.2.1⟩

/-- Every process exit from the select phase is either a build failure
return, with code 0, or an exit with code 100. -/
theorem handleSelect_exited {settings : AppSpecificConfig} {s : LoopState}
    {inp : IterInput} {c : Nat} {tr : List Act}
    (h : handleSelect settings s inp = Outcome.exited c tr) :
    (c = 0 ∧ Act.buildRun false ∈ tr) ∨ c = 100 := by
  cases harm : inp.arm with
  | change e =>
    rw [handleSelect_change harm] at h
    exact Or.inr (handleChange_exited h)
  | timer r =>
    rw [handleSelect_timer harm] at h
    exact handleTimer_exited h

/-- C8: whenever the reload flag is observed set during the post event poll,
every continuing iteration ends with the flag clear; the successful reload
path performs exactly one kill followed (in trace order) by exactly one
spawn before clearing the flag, and a kill failure exits the process with
the sentinel code 100. -/
theorem C8_reload_flag_handled (settings : AppSpecificConfig)
    (s : LoopState) (inp : IterInput)
    (hobs : (s.reload || inp.sigReload) = true) :
    (∀ s2 tr, stepIter settings s inp = Outcome.next s2 tr →
        s2.reload = false)
    ∧ (inp.reloadConfigOk = true → inp.reloadKillOk = false →
        handleReload s inp
          = Outcome.exited 100
              [Act.loadAppConfig, Act.loadStateRecord, Act.updateState,
               Act.killAttempt false, Act.logError, Act.windDown])
    ∧ (inp.reloadConfigOk = true → inp.reloadKillOk = true →
        inp.reloadBuildOk = true → inp.reloadSpawnOk = true →
        handleReload s inp
          = Outcome.next
              { s with state := reloadedState inp, childGen := s.childGen + 1,
                       reload := false }
              [Act.loadAppConfig, Act.loadStateRecord, Act.updateState,
               Act.killAttempt true, Act.buildRun true, Act.spawnChild]
        ∧ (handleReload s inp).trace.count (Act.killAttempt true) = 1
        ∧ (handleReload s inp).trace.count Act.spawnChild = 1) := by
  refine ⟨?_, ?_, ?_⟩
  · intro s2 tr h
    obtain ⟨s1, tr1, sB, tr2, tr3, hsel, hrel, hsd, -⟩ := stepIter_next_decomp h
    obtain ⟨hEq, -, -⟩ := handleShutdown_next hsd
    rw [hEq]
    exact (handleReload_next hrel).2.1
  · intro hc hk
    exact handleReload_killFail hobs hc hk
  · intro hc hk hb hsp
    have heq := handleReload_ok hobs hc hk hb hsp
    refine ⟨heq, ?_, ?_⟩
    · rw [heq]
      simp only [Outcome.trace]
      decide
    · rw [heq]
      simp only [Outcome.trace]
      decide

/-- The continuing result of the successful reload iteration used as
witness. -/
def outC8 : LoopState :=
  { state := { data := "Reloading", event_counter := 0, is_active := true,
               error_log := [] },
    change_count := 0, childGen := 1, reload := false, exit_graceful := false }

/-- Witness for C8 at the concrete reload input. -/
theorem C8_witness :
    (sC7.reload || inpC7.sigReload) = true ∧ outC8.reload = false :=
  ⟨by decide,
    (C8_reload_flag_handled settings0 sC7 inpC7 (by decide)).1 outC8
      [Act.printUsage, Act.updateState, Act.loadAppConfig, Act.loadStateRecord,
       Act.updateState, Act.killAttempt true, Act.buildRun true,
       Act.spawnChild]
      (by decide)⟩

/-- A health check iteration whose rebuild fails, with no signals. -/
def sC9 : LoopState := initLoopState 2

/-- A timer input observing a dead child whose rebuild fails. -/
def inpC9 : IterInput :=
  { inp0 with arm := SelectArm.timer false, buildOk := false }

/-- C9 counterexample: with the shutdown flag never set, a failed one shot
build in the health restart path terminates the process from inside the
loop with the success code 0 (the return from main), refuting the claim
that the shutdown path is the only success code termination from inside the
loop. -/
theorem C9_counterexample :
    stepIter settings0 sC9 inpC9
      = Outcome.exited 0 [Act.printUsage, Act.buildRun false, Act.logError]
    ∧ sC9.exit_graceful = false ∧ inpC9.sigShutdown = false := by decide

/-- C9 corrected: when the shutdown flag is observed set the loop makes
exactly one kill attempt and terminates, with code 0 on kill success and,
after recording the error and winding down, code 100 on kill failure; but
this is not the only success code termination from inside the loop: every
iteration exit with code 0 is either such a shutdown, or carries a failed
one shot build in its trace (the return from main paths of the health
restart and of the reload branch). -/
theorem C9_shutdown_and_success_exits (settings : AppSpecificConfig)
    (s : LoopState) (inp : IterInput) :
    ((s.exit_graceful || inp.sigShutdown) = true →
        (inp.shutdownKillOk = true →
          handleShutdown s inp = Outcome.exited 0 [Act.killAttempt true])
        ∧ (inp.shutdownKillOk = false →
          handleShutdown s inp
            = Outcome.exited 100
                [Act.killAttempt false, Act.logError, Act.windDown]))
    ∧ (∀ tr, stepIter settings s inp = Outcome.exited 0 tr →
        Act.buildRun false ∈ tr
        ∨ ((s.exit_graceful || inp.sigShutdown) = true
            ∧ inp.shutdownKillOk = true ∧ Act.killAttempt true ∈ tr)) := by
  constructor
  · intro hobs
    exact ⟨fun hk => handleShutdown_ok hobs hk,
      fun hk => handleShutdown_killFail hobs hk⟩
  · intro tr h
    rcases stepIter_exited_decomp h with
      ⟨tr0, hsel, htr⟩ | ⟨s1, tr1, tr2, hsel, hrel, htr⟩
        | ⟨s1, tr1, sB, tr2, tr3, hsel, hrel, hsd, htr⟩
    · rcases handleSelect_exited hsel with ⟨-, hmem⟩ | hc
      · left
        rw [htr]
        exact List.mem_cons_of_mem _ hmem
      · exact absurd hc (by simp)
    · rcases handleReload_exited hrel with ⟨-, hmem⟩ | hc
      · left
        rw [htr]
        exact List.mem_cons_of_mem _ (List.mem_append.mpr (Or.inr hmem))
      · exact absurd hc (by simp)
    · obtain ⟨hobsB, hcase⟩ := handleShutdown_exited hsd
      rcases hcase with ⟨-, hk, htr3⟩ | ⟨hc, -⟩
      · right
        have hex1 := (handleReload_next hrel).2.2
        have hex2 := (handleSelect_next_flags hsel).2
        rw [hex1, hex2] at hobsB
        refine ⟨hobsB, hk, ?_⟩
        rw [htr, htr3]
        exact List.mem_cons_of_mem _
          (List.mem_append.mpr (Or.inr (List.mem_singleton.mpr rfl)))
      · exact absurd hc (by simp)

/-- Witness for the corrected C9 at the concrete shutdown input. -/
theorem C9_witness :
    (sC6.exit_graceful || inpC6.sigShutdown) = true
    ∧ handleShutdown sC6 inpC6 = Outcome.exited 0 [Act.killAttempt true] :=
  ⟨by decide,
    ((C9_shutdown_and_success_exits settings0 sC6 inpC6).1 (by decide)).1 rfl⟩
